import Mathlib

/-!
Shallow embedding of the TDMA mesh protocol core of
src/firmware/firmware.ino (with constants from src/firmware/settings_template.h).

Conventions of the embedding:
* machine integers are modelled as Nat (unsigned) or Int (signed), with
  explicit truncation by % 256 / % 65536 exactly where the C code truncates;
* the C build flags are fixed to the template defaults ENABLE_WIFI == 0 and
  ENABLE_LATENCY_CALC irrelevant (the WiFi / NTP latency blocks are compiled
  out); IS_REFERENCE and ENABLE_PDR_TRACKING remain per-node build flags and
  are passed as explicit Bool parameters where the firmware uses #if on them;
* a radio frame is a list of 48 byte values; a missing index reads as 0;
* the float field pdr is modelled by the exact rational value of the
  arithmetic expression the C code assigns to it.
-/

set_option maxRecDepth 10000

namespace LoRaMesh

/-- RSSI_THRESHOLD_DBM from firmware.ino line 160: ignore neighbours below -115 dBm. -/
def RSSI_THRESHOLD_DBM : Int := -115

/-- MIN_RSSI_THRESHOLD from settings_template.h line 113: prefer nodes with RSSI > -100. -/
def MIN_RSSI_THRESHOLD : Int := -100

/-- MAX_NEIGHBOURS from settings_template.h line 173. -/
def MAX_NEIGHBOURS : Nat := 10

/-- MAX_NEIGHBOURS_IN_PACKET from settings_template.h line 105
    (raised from 4 to 6 by the source). -/
def MAX_NEIGHBOURS_IN_PACKET : Nat := 6

/-- FORWARD_QUEUE_SIZE from firmware.ino line 182. -/
def FORWARD_QUEUE_SIZE : Nat := 8

/-- SENSOR_DATA_LENGTH from settings_template.h line 166. -/
def SENSOR_DATA_LENGTH : Nat := 6

/-- MAX_TRACKING_HOPS from settings_template.h line 167. -/
def MAX_TRACKING_HOPS : Nat := 3

/-- AUTO_SEND_INTERVAL_CYCLES from firmware.ino line 298. -/
def AUTO_SEND_INTERVAL_CYCLES : Nat := 6

/-- CYCLE_VALIDATION_THRESHOLD from firmware.ino line 305. -/
def CYCLE_VALIDATION_THRESHOLD : Nat := 3

/-- SYNC_VALID_CYCLES from settings_template.h line 238. -/
def SYNC_VALID_CYCLES : Nat := 5

/-- Stratum levels from settings_template.h lines 232-235. -/
def STRATUM_GATEWAY : Nat := 0

/-- Stratum DIRECT: synced directly from the gateway. -/
def STRATUM_DIRECT : Nat := 1

/-- Stratum INDIRECT: synced through an intermediary. -/
def STRATUM_INDIRECT : Nat := 2

/-- Stratum LOCAL: not synced to the gateway. -/
def STRATUM_LOCAL : Nat := 3

/-- STRATUM_INHERIT_DELTA from settings_template.h line 239. -/
def STRATUM_INHERIT_DELTA : Nat := 1

/-- MAX_PDR_NODES from firmware.ino line 240. -/
def MAX_PDR_NODES : Nat := 10

/-- FIXED_PACKET_LENGTH from settings_template.h line 104. -/
def FIXED_PACKET_LENGTH : Nat := 48

/-- MAX_INACTIVE_CYCLES from settings_template.h line 174. -/
def MAX_INACTIVE_CYCLES : Nat := 5

/-- Data mode constants from settings_template.h lines 108-110. -/
def DATA_MODE_NONE : Nat := 0

/-- Data mode for a node's own sensor payload. -/
def DATA_MODE_OWN : Nat := 1

/-- Data mode for a relayed payload. -/
def DATA_MODE_FORWARD : Nat := 2

/-- NeighbourInfo from settings_template.h lines 247-276.  The unused
    position (posX/posY/posZ) and isDistanceMeasured fields are omitted;
    the neighboursSlot / neighboursHoppingDistance / neighboursIsLocalized
    arrays are omitted because no protocol logic reads them; neighboursId is
    kept as the list of the first numberOfNeighbours parsed ids (the region
    of the C array that readers governed by numberOfNeighbours can see). -/
structure NeighbourInfo where
  id : Nat
  slotIndex : Nat
  isLocalized : Bool
  hoppingDistance : Nat
  syncedCycle : Nat
  cycleHistory : List Nat
  cycleHistoryIdx : Nat
  cyclesSequential : Bool
  syncStratum : Nat
  numberOfNeighbours : Nat
  neighboursId : List Nat
  amIListedAsNeighbour : Bool
  rssi : Int
  snr : Int
  activityCounter : Nat
  isBidirectional : Bool
deriving DecidableEq, Repr

/-- Default-constructed NeighbourInfo (the C++ in-class initialisers). -/
def freshNeighbourEntry : NeighbourInfo :=
  { id := 0, slotIndex := 0, isLocalized := false, hoppingDistance := 0x7F,
    syncedCycle := 0, cycleHistory := [255, 255, 255], cycleHistoryIdx := 0,
    cyclesSequential := false, syncStratum := STRATUM_LOCAL,
    numberOfNeighbours := 0, neighboursId := [], amIListedAsNeighbour := false,
    rssi := 0, snr := 0, activityCounter := 0, isBidirectional := false }

instance : Inhabited NeighbourInfo := ⟨freshNeighbourEntry⟩

/-- MyNodeInfo from settings_template.h lines 278-299 (position fields omitted). -/
structure MyNodeInfo where
  id : Nat
  slotIndex : Nat
  isLocalized : Bool
  hoppingDistance : Nat
  syncedCycle : Nat
  syncStratum : Nat
  syncSource : Nat
  syncValidCounter : Nat
  syncedWithGateway : Bool
deriving DecidableEq, Repr, Inhabited

/-- ForwardMessage from firmware.ino lines 183-193 (the txTimestampUs field is
    compiled out in the ENABLE_WIFI == 0 build modelled here).  data holds the
    dataLen payload bytes copied by memcpy; tracking has MAX_TRACKING_HOPS slots. -/
structure ForwardMessage where
  originalSender : Nat
  messageId : Nat
  hopCount : Nat
  dataLen : Nat
  data : List Nat
  tracking : List Nat
deriving DecidableEq, Repr

instance : Inhabited ForwardMessage :=
  ⟨{ originalSender := 0, messageId := 0, hopCount := 0, dataLen := 0,
     data := [], tracking := [0, 0, 0] }⟩

/-- PdrNodeStats from firmware.ino lines 249-265; the wall-clock field
    lastUpdateTime and the latency statistics (external-time dependent,
    untouched by updatePdrStats' sequence accounting) are omitted.
    pdr carries the exact rational value of the C float expression. -/
structure PdrNodeStats where
  nodeId : Nat
  lastSeqReceived : Nat
  expectedCount : Nat
  receivedCount : Nat
  gapCount : Nat
  pdr : ℚ
  initialized : Bool
deriving DecidableEq, Repr

instance : Inhabited PdrNodeStats :=
  ⟨{ nodeId := 0, lastSeqReceived := 0, expectedCount := 0, receivedCount := 0,
     gapCount := 0, pdr := 100, initialized := false }⟩

/-- ResponderOutput from settings_template.h lines 141-144. -/
structure ResponderOutput where
  senderSlot : Nat
  adjustTiming : Bool
deriving DecidableEq, Repr, Inhabited

/-- The protocol state of one node: the globals of firmware.ino that the
    mesh-protocol functions read and write.  neighbours and neighbourIndices
    are the MAX_NEIGHBOURS-slot arrays (an entry with id = 0 is free);
    forwardQueue is the FORWARD_QUEUE_SIZE-slot ring buffer;
    lastCycleForStratum is the static local of loop() (firmware.ino line 2682). -/
structure NodeState where
  my : MyNodeInfo
  neighbours : List NeighbourInfo
  neighbourIndices : List Nat
  neighbourCount : Nat
  forwardQueue : List ForwardMessage
  forwardQueueHead : Nat
  forwardQueueTail : Nat
  forwardQueueCount : Nat
  hasSensorDataToSend : Bool
  sensorDataToSend : List Nat
  sensorDataReceived : List Nat
  messageIdCounter : Nat
  ownMessageOrigSender : Nat
  ownMessageId : Nat
  cycleValidated : Bool
  cycleValidationCount : Nat
  lastReceivedCycle : Int
  pdrStats : List PdrNodeStats
  lastCycleForStratum : Nat
deriving DecidableEq, Repr

/-- enqueueForward from firmware.ino lines 1200-1213 (ring-buffer write). -/
def enqueueForward (s : NodeState) (msg : ForwardMessage) : NodeState × Bool :=
  if FORWARD_QUEUE_SIZE ≤ s.forwardQueueCount then (s, false)
  else
    ({ s with
        forwardQueue := s.forwardQueue.set s.forwardQueueHead msg,
        forwardQueueHead := (s.forwardQueueHead + 1) % FORWARD_QUEUE_SIZE,
        forwardQueueCount := s.forwardQueueCount + 1 }, true)

/-- dequeueForward from firmware.ino lines 1215-1225 (ring-buffer read). -/
def dequeueForward (s : NodeState) : NodeState × Option ForwardMessage :=
  if s.forwardQueueCount = 0 then (s, none)
  else
    ({ s with
        forwardQueueTail := (s.forwardQueueTail + 1) % FORWARD_QUEUE_SIZE,
        forwardQueueCount := s.forwardQueueCount - 1 },
      some (s.forwardQueue.getD s.forwardQueueTail default))

/-- The live content of the forward queue, oldest first (the entries a chain
    of dequeueForward calls would deliver). -/
def forwardQueueEntries (s : NodeState) : List ForwardMessage :=
  (List.range s.forwardQueueCount).map
    (fun i => s.forwardQueue.getD ((s.forwardQueueTail + i) % FORWARD_QUEUE_SIZE) default)

/-- One candidate inspection of selectBestNextHop, firmware.ino lines 1237-1286.
    The accumulator is (bestNodeId, bestRssi, bestSnr, bestHop). -/
def selectBestNextHopStep (s : NodeState) (acc : Nat × Int × Int × Nat) (i : Nat) :
    Nat × Int × Int × Nat :=
  let idx := s.neighbourIndices.getD i 0
  let n := s.neighbours.getD idx default
  let bestNodeId := acc.1
  let bestRssi := acc.2.1
  let bestSnr := acc.2.2.1
  let bestHop := acc.2.2.2
  if n.rssi < RSSI_THRESHOLD_DBM then acc
  else if ¬n.amIListedAsNeighbour then acc
  else if s.my.hoppingDistance ≤ n.hoppingDistance then acc
  else if n.hoppingDistance = 0x7F then acc
  else
    let currentGoodRssi := MIN_RSSI_THRESHOLD < n.rssi
    let bestGoodRssi := MIN_RSSI_THRESHOLD < bestRssi
    let shouldSelect :=
      if bestNodeId = 0 then true
      else if currentGoodRssi ∧ ¬bestGoodRssi then true
      else if ¬currentGoodRssi ∧ bestGoodRssi then false
      else if n.hoppingDistance < bestHop then true
      else if n.hoppingDistance = bestHop then
        if bestRssi < n.rssi then true
        else if n.rssi = bestRssi ∧ bestSnr < n.snr then true
        else false
      else false
    if shouldSelect then (n.id, n.rssi, n.snr, n.hoppingDistance) else acc

/-- selectBestNextHop from firmware.ino lines 1228-1294: scan the first
    neighbourCount slots of neighbourIndices, return 0 when nothing qualifies. -/
def selectBestNextHop (s : NodeState) : Nat :=
  ((List.range s.neighbourCount).foldl (selectBestNextHopStep s) (0, -200, -128, 0xFF)).1

/-- The qualifying next-hop distances of recalculateHopCount
    (firmware.ino lines 2080-2090): n.hop + 1 for every occupied entry with a
    known hop and RSSI at or above the floor. -/
def hopCandidates (s : NodeState) : List Nat :=
  s.neighbours.filterMap
    (fun n =>
      if n.id ≠ 0 ∧ n.hoppingDistance ≠ 0x7F ∧ RSSI_THRESHOLD_DBM ≤ n.rssi then
        some (n.hoppingDistance + 1)
      else none)

/-- The minHop scan of recalculateHopCount, firmware.ino lines 2077-2090. -/
def recalcMinHop (s : NodeState) : Nat :=
  s.neighbours.foldl
    (fun minHop n =>
      if n.id ≠ 0 ∧ n.hoppingDistance ≠ 0x7F ∧ RSSI_THRESHOLD_DBM ≤ n.rssi then
        if n.hoppingDistance + 1 < minHop then n.hoppingDistance + 1 else minHop
      else minHop)
    0x7F

/-- recalculateHopCount from firmware.ino lines 2074-2104 (non-gateway build;
    the gateway build compiles the body away).  Note the guard: the hop is
    only overwritten when the scan found a value that differs from the current
    hop AND is not the 0x7F sentinel. -/
def recalculateHopCount (s : NodeState) : NodeState :=
  let minHop := recalcMinHop s
  if minHop ≠ s.my.hoppingDistance ∧ minHop ≠ 0x7F then
    { s with my := { s.my with hoppingDistance := minHop } }
  else s

/-- Read byte i of a frame buffer (uint8 semantics; missing index reads 0). -/
def fByte (rx : List Nat) (i : Nat) : Nat := rx.getD i 0 % 256

/-- Big-endian 16-bit read at offset i, as in (rx[i] << 8) | rx[i+1]. -/
def fWord (rx : List Nat) (i : Nat) : Nat := fByte rx i * 256 + fByte rx (i + 1)

/-- sender_id parse of processRxPacket, firmware.ino line 1511. -/
def parseSenderId (rx : List Nat) : Nat := fWord rx 3

/-- sender_slot parse of processRxPacket, firmware.ino line 1512. -/
def parseSenderSlot (rx : List Nat) : Nat := fByte rx 5

/-- Clamped neighbour count of processRxPacket, firmware.ino lines 1516 and
    1524-1526: the 3-bit field, then clamped to MAX_NEIGHBOURS_IN_PACKET. -/
def parseNumNeighbours (rx : List Nat) : Nat :=
  min (fByte rx 7 % 8) MAX_NEIGHBOURS_IN_PACKET

/-- The sender-neighbour ids read by the loop of firmware.ino lines 1646-1679:
    entry i is the big-endian word at offset 12 + 4i. -/
def parseNeighbourIds (rx : List Nat) : List Nat :=
  (List.range (parseNumNeighbours rx)).map (fun i => fWord rx (12 + 4 * i))

/-- Write a big-endian 16-bit value at offset i of a buffer. -/
def setWordBE (buf : List Nat) (i v : Nat) : List Nat :=
  (buf.set i (v / 256 % 256)).set (i + 1) (v % 256)

/-- First-packet / sequence-jump update of one PdrNodeStats record,
    firmware.ino lines 535-577 (the body of the nodeIndex >= 0 block of
    updatePdrStats, minus the wall-clock stamp and global tallies).
    Counters are uint16, hence the % 65536 truncations. -/
def pdrApply (stats : PdrNodeStats) (seqNum : Nat) : PdrNodeStats :=
  if ¬stats.initialized then
    { stats with lastSeqReceived := seqNum, receivedCount := 1, expectedCount := 1,
                 initialized := true, pdr := 100 }
  else
    let seqDiff :=
      if stats.lastSeqReceived < seqNum then seqNum - stats.lastSeqReceived
      else 256 - stats.lastSeqReceived + seqNum
    let received := (stats.receivedCount + 1) % 65536
    let expected := (stats.expectedCount + seqDiff) % 65536
    let gaps :=
      if 1 < seqDiff then (stats.gapCount + (seqDiff - 1)) % 65536 else stats.gapCount
    let pdr := if 0 < expected then (received : ℚ) * 100 / (expected : ℚ) else stats.pdr
    { stats with lastSeqReceived := seqNum, receivedCount := received,
                 expectedCount := expected, gapCount := gaps, pdr := pdr }

/-- Fresh PdrNodeStats entry as created by firmware.ino lines 512-529. -/
def pdrInitEntry (nodeId : Nat) : PdrNodeStats :=
  { nodeId := nodeId, lastSeqReceived := 0, expectedCount := 0, receivedCount := 0,
    gapCount := 0, pdr := 100, initialized := false }

/-- updatePdrStats from firmware.ino lines 497-595: find or create the
    per-origin entry (bounded by MAX_PDR_NODES), then apply the sequence
    accounting to it with seq = messageId & 0xFF. -/
def updatePdrStats (pdrStats : List PdrNodeStats) (nodeId messageId : Nat) :
    List PdrNodeStats :=
  let seqNum := messageId % 256
  match pdrStats.findIdx? (fun e => e.nodeId == nodeId) with
  | some i => pdrStats.set i (pdrApply (pdrStats.getD i default) seqNum)
  | none =>
      if pdrStats.length < MAX_PDR_NODES then
        pdrStats ++ [pdrApply (pdrInitEntry nodeId) seqNum]
      else pdrStats

/-- neighborsToSend of transmitUnifiedPacket, firmware.ino line 1309. -/
def neighborsToSendOf (s : NodeState) : Nat :=
  min s.neighbourCount MAX_NEIGHBOURS_IN_PACKET

/-- Content selection of transmitUnifiedPacket, firmware.ino lines 1336-1407:
    priority 1 drains one forward-queue entry (when the hop is neither 0 nor
    0x7F) and only then picks the next hop; priority 2 takes the pending own
    payload.  Returns the post-selection state and
    (dataMode, hopDecisionTarget, origSender, msgId, hopCount, dataLen, tracking). -/
def txContent (s : NodeState) :
    NodeState × Nat × Nat × Nat × Nat × Nat × Nat × List Nat :=
  if 0 < s.forwardQueueCount ∧ s.my.hoppingDistance ≠ 0x7F ∧ s.my.hoppingDistance ≠ 0 then
    match dequeueForward s with
    | (s1, some fwdMsg) =>
        (s1, DATA_MODE_FORWARD, selectBestNextHop s1, fwdMsg.originalSender,
         fwdMsg.messageId, fwdMsg.hopCount, fwdMsg.dataLen, fwdMsg.tracking)
    | (s1, none) => (s1, DATA_MODE_NONE, 0, 0, 0, 0, 0, [0, 0, 0])
  else if s.hasSensorDataToSend ∧ s.my.hoppingDistance ≠ 0x7F ∧ s.my.hoppingDistance ≠ 0 then
    ({ s with hasSensorDataToSend := false }, DATA_MODE_OWN, selectBestNextHop s,
     s.ownMessageOrigSender, s.ownMessageId, 1,
     min s.sensorDataToSend.length SENSOR_DATA_LENGTH, [s.my.id % 65536, 0, 0])
  else (s, DATA_MODE_NONE, 0, 0, 0, 0, 0, [0, 0, 0])

/-- transmitUnifiedPacket from firmware.ino lines 1297-1504, ENABLE_WIFI == 0
    build.  Builds the 48-byte frame: header, up to neighborsToSend neighbour
    entries at offsets 12.., then the data section at offsets 28-39 when
    dataMode is not NONE.  Faithful to the source, the sensor payload bytes
    (dataToSend, filled at lines 1357 and 1379) are NEVER copied into the
    buffer: no statement writes them to bytes 40-45, so those bytes keep the
    memset zeros (in the WiFi build they hold the embedded timestamp instead).
    Returns the post-TX state and the frame put on air. -/
def transmitUnifiedPacket (s : NodeState) : NodeState × List Nat :=
  let buf0 := List.replicate FIXED_PACKET_LENGTH 0
  let bufH :=
    ((((buf0.set 2 0 |> fun b => setWordBE b 3 s.my.id).set 5 (s.my.slotIndex % 256)).set 6
        (((if s.my.isLocalized then 128 else 0) ||| s.my.hoppingDistance) % 256)).set 7
        (((s.my.syncedCycle % 32) * 8 + neighborsToSendOf s % 8) % 256)).set 11
        ((s.my.syncStratum % 4) * 64)
  let bufN :=
    (List.range (neighborsToSendOf s)).foldl
      (fun buf i =>
        let idx := s.neighbourIndices.getD i 0
        let n := s.neighbours.getD idx default
        ((setWordBE buf (12 + 4 * i) n.id).set (12 + 4 * i + 2) (n.slotIndex % 256)).set
          (12 + 4 * i + 3) (((if n.isLocalized then 128 else 0) ||| n.hoppingDistance) % 256))
      bufH
  match txContent s with
  | (s1, dataMode, hopDecisionTarget, origSender, msgId, hopCount, dataLen, tracking) =>
    let buf2 := setWordBE (bufN.set 8 (dataMode % 256)) 9 hopDecisionTarget
    let buf3 :=
      if dataMode ≠ DATA_MODE_NONE then
        let bufA := setWordBE (setWordBE buf2 28 origSender) 30 msgId
        let bufB := (bufA.set 32 (hopCount % 256)).set 33 (dataLen % 256)
        (List.range MAX_TRACKING_HOPS).foldl
          (fun buf i => setWordBE buf (34 + 2 * i) (tracking.getD i 0)) bufB
      else buf2
    (s1, buf3)

/-- Locate the sender in the neighbour table, firmware.ino lines 1552-1573:
    first by id, then the first free slot; the Bool is isNewNeighbor. -/
def findSenderSlot (neighbours : List NeighbourInfo) (senderId : Nat) :
    Option (Nat × Bool) :=
  match neighbours.findIdx? (fun n => n.id == senderId) with
  | some i => some (i, false)
  | none =>
      match neighbours.findIdx? (fun n => n.id == 0) with
      | some i => some (i, true)
      | none => none

/-- The refreshed neighbour entry written by firmware.ino lines 1575-1679:
    identity and quality fields, the 3-slot cycle-history ring with the
    array-order sequential check, the sender's advertised neighbour list, and
    the bidirectional flags (isBidirectional is sticky, set only when our id
    is listed). -/
def refreshNeighbourEntry (old : NeighbourInfo) (myId senderId senderSlot senderHop : Nat)
    (senderLocalized : Bool) (senderCycle senderStratum : Nat) (parsedIds : List Nat)
    (rxRssi rxSnr : Int) : NeighbourInfo :=
  let hist1 := old.cycleHistory.set old.cycleHistoryIdx senderCycle
  let validCount := (hist1.filter (fun c => c != 255)).length
  let sequential :=
    if 3 ≤ validCount then
      (List.range 2).all (fun k =>
        let curr := hist1.getD k 0
        let next := hist1.getD (k + 1) 0
        if curr != 255 && next != 255 then
          next == (curr + 1) % AUTO_SEND_INTERVAL_CYCLES
        else true)
    else false
  let amIListed := parsedIds.any (fun nid => nid == myId)
  { id := senderId, slotIndex := senderSlot, hoppingDistance := senderHop,
    isLocalized := senderLocalized, syncedCycle := senderCycle,
    cycleHistory := hist1, cycleHistoryIdx := (old.cycleHistoryIdx + 1) % 3,
    cyclesSequential := sequential, syncStratum := senderStratum,
    numberOfNeighbours := parsedIds.length, neighboursId := parsedIds,
    amIListedAsNeighbour := amIListed, rssi := rxRssi, snr := rxSnr,
    activityCounter := 0,
    isBidirectional := old.isBidirectional || amIListed }

/-- Hierarchical sync block of processRxPacket, firmware.ino lines 1685-1722
    (compiled only when IS_REFERENCE == 0). -/
def applySyncLogic (s : NodeState) (senderId senderStratum : Nat) : NodeState :=
  if senderId = 1 then
    { s with my := { s.my with
        syncStratum := STRATUM_DIRECT, syncSource := senderId,
        syncValidCounter := SYNC_VALID_CYCLES, syncedWithGateway := true } }
  else if senderStratum < s.my.syncStratum ∧ senderStratum < STRATUM_LOCAL then
    let newStratum := min (senderStratum + STRATUM_INHERIT_DELTA) STRATUM_INDIRECT
    { s with my := { s.my with
        syncStratum := newStratum, syncSource := senderId,
        syncValidCounter := SYNC_VALID_CYCLES,
        syncedWithGateway := newStratum < STRATUM_LOCAL } }
  else if senderStratum ≤ s.my.syncStratum ∧ s.my.syncSource = senderId then
    { s with my := { s.my with syncValidCounter := SYNC_VALID_CYCLES } }
  else s

/-- Cycle validation and cycle alignment block of processRxPacket,
    firmware.ino lines 1743-1824 (non-gateway build; the caller has already
    checked that the sender is closer to the gateway). -/
def applyCycleValidation (s : NodeState) (senderCycle : Nat) : NodeState :=
  let s1 :=
    if ¬s.cycleValidated then
      if s.lastReceivedCycle = -1 then
        { s with lastReceivedCycle := (senderCycle : Int), cycleValidationCount := 1 }
      else
        let expectedCycle := (s.lastReceivedCycle + 1) % (AUTO_SEND_INTERVAL_CYCLES : Int)
        if (senderCycle : Int) = expectedCycle then
          let s2 := { s with cycleValidationCount := s.cycleValidationCount + 1,
                             lastReceivedCycle := (senderCycle : Int) }
          if CYCLE_VALIDATION_THRESHOLD ≤ s2.cycleValidationCount then
            { s2 with cycleValidated := true }
          else s2
        else
          { s with lastReceivedCycle := (senderCycle : Int), cycleValidationCount := 1 }
    else s
  if s1.my.syncedCycle ≠ senderCycle then
    { s1 with my := { s1.my with syncedCycle := senderCycle } }
  else s1

/-- processRxPacket from firmware.ino lines 1507-2068 (ENABLE_WIFI == 0 build;
    the latency / WiFi-batch blocks are compiled out).  isRef fixes the
    IS_REFERENCE build flag (gateway firmware omits the sync / hop / cycle
    blocks), pdrEnabled fixes ENABLE_PDR_TRACKING.  Returns the new state and
    the returned sender slot (255 when the frame is rejected at the RSSI
    floor, 0 on the gateway loopback early return). -/
def processRxPacket (isRef pdrEnabled : Bool) (s : NodeState) (rx : List Nat)
    (rxRssi rxSnr : Int) : NodeState × Nat :=
  let senderId := parseSenderId rx
  let senderSlot := parseSenderSlot rx
  let senderHop := fByte rx 6 % 128
  let senderLocalized := fByte rx 6 / 128 = 1
  let senderCycle := fByte rx 7 / 8 % 32
  let dataMode := fByte rx 8
  let hopDecisionTarget := fWord rx 9
  let senderStratum := fByte rx 11 / 64 % 4
  if rxRssi < RSSI_THRESHOLD_DBM then (s, 255)
  else
    match findSenderSlot s.neighbours senderId with
    | none => (s, senderSlot)
    | some (selIdx, isNew) =>
      let s := if isNew then { s with neighbourCount := s.neighbourCount + 1 } else s
      let old := s.neighbours.getD selIdx default
      let entry := refreshNeighbourEntry old s.my.id senderId senderSlot senderHop
        senderLocalized senderCycle senderStratum (parseNeighbourIds rx) rxRssi rxSnr
      let s := { s with neighbours := s.neighbours.set selIdx entry }
      let s := if isRef then s else applySyncLogic s senderId senderStratum
      let s :=
        if isRef then s
        else if entry.hoppingDistance ≠ 0x7F ∧ RSSI_THRESHOLD_DBM ≤ entry.rssi then
          if entry.hoppingDistance + 1 < s.my.hoppingDistance then
            { s with my := { s.my with hoppingDistance := entry.hoppingDistance + 1 } }
          else s
        else s
      let s :=
        if isRef then s
        else if entry.hoppingDistance < s.my.hoppingDistance ∧
                RSSI_THRESHOLD_DBM ≤ entry.rssi then
          applyCycleValidation s senderCycle
        else s
      if dataMode = DATA_MODE_OWN ∨ dataMode = DATA_MODE_FORWARD then
        let origSender := fWord rx 28
        let msgId := fWord rx 30
        let hopCount := fByte rx 32
        let dataLen := min (fByte rx 33) SENSOR_DATA_LENGTH
        let tracking := (List.range MAX_TRACKING_HOPS).map (fun i => fWord rx (34 + 2 * i))
        let received := (List.range dataLen).map (fun i => fByte rx (40 + i))
        let s := { s with sensorDataReceived := received }
        if s.my.hoppingDistance = 0 then
          if origSender = s.my.id then (s, 0)
          else
            let s :=
              if pdrEnabled then { s with pdrStats := updatePdrStats s.pdrStats origSender msgId }
              else s
            (s, senderSlot)
        else
          if hopDecisionTarget ≠ s.my.id then (s, senderSlot)
          else
            let fwdMsg : ForwardMessage :=
              { originalSender := origSender, messageId := msgId,
                hopCount := (hopCount + 1) % 256, dataLen := dataLen,
                data := received,
                tracking :=
                  if hopCount < MAX_TRACKING_HOPS then tracking.set hopCount (s.my.id % 65536)
                  else tracking }
            ((enqueueForward s fwdMsg).1, senderSlot)
      else (s, senderSlot)

/-- The dispatch of responder on the value processRxPacket returned,
    firmware.ino lines 2206-2219: a slot other than 255 switches the output
    to adjust-timing mode; 255 leaves the defaults. -/
def responderDispatch (ret : Nat) : ResponderOutput :=
  if ret ≠ 255 then { senderSlot := ret, adjustTiming := true }
  else { senderSlot := 255, adjustTiming := false }

/-- Stratum timeout check at the top of loop(), firmware.ino lines 2680-2706
    (non-gateway build).  The block is gated on the static lastCycleForStratum
    differing from the current syncedCycle; only then is the counter
    decremented and, on hitting 0 with a stratum better than LOCAL, the node
    degraded directly to LOCAL with the sync source cleared. -/
def stratumTimeoutStep (s : NodeState) : NodeState :=
  if s.lastCycleForStratum ≠ s.my.syncedCycle then
    let s1 := { s with lastCycleForStratum := s.my.syncedCycle }
    if 0 < s1.my.syncValidCounter then
      let s2 := { s1 with my := { s1.my with syncValidCounter := s1.my.syncValidCounter - 1 } }
      if s2.my.syncValidCounter = 0 ∧ s2.my.syncStratum < STRATUM_LOCAL then
        { s2 with my := { s2.my with
            syncStratum := STRATUM_LOCAL, syncedWithGateway := false, syncSource := 0 } }
      else s2
    else s1
  else s

/-- The my-turn cycle of the auto-send block, firmware.ino line 2718:
    (myInfo.id - 1) % AUTO_SEND_INTERVAL_CYCLES in uint16 arithmetic. -/
def myTurnCycle (id : Nat) : Nat :=
  ((id + 65535) % 65536) % AUTO_SEND_INTERVAL_CYCLES

/-- The hasNextHop scan of the auto-send block, firmware.ino lines 2721-2729:
    some indexed neighbour is strictly closer to the gateway and lists us. -/
def hasNextHopB (s : NodeState) : Bool :=
  (List.range s.neighbourCount).any (fun i =>
    let n := s.neighbours.getD (s.neighbourIndices.getD i 0) default
    decide (n.hoppingDistance < s.my.hoppingDistance) && n.amIListedAsNeighbour)

/-- The complete gate of the auto-send block, firmware.ino lines 2710-2731:
    canAutoSend (hop not 0 and not 0x7F, no pending payload, cycle validated),
    the round-robin turn test, and hasNextHop. -/
def autoSendFires (s : NodeState) : Bool :=
  (s.my.hoppingDistance != 0) && (s.my.hoppingDistance != 0x7F) &&
  !s.hasSensorDataToSend && s.cycleValidated &&
  (s.my.syncedCycle == myTurnCycle s.my.id) && hasNextHopB s

/-- The auto-send origination block of loop(), firmware.ino lines 2709-2754.
    The simulated sensor reading produced by random() and snprintf at lines
    2732-2738 is an external input here (payload, truncated to the
    SENSOR_DATA_LENGTH characters the char[7] buffer can hold). -/
def autoSendStep (s : NodeState) (payload : List Nat) : NodeState :=
  if autoSendFires s then
    let counter := (s.messageIdCounter + 1) % 65536
    { s with sensorDataToSend := payload.take SENSOR_DATA_LENGTH,
             messageIdCounter := counter,
             ownMessageOrigSender := s.my.id,
             ownMessageId := (s.my.id % 256) * 256 + counter % 256,
             hasSensorDataToSend := true }
  else s

/-- Ten free neighbour-table slots (initial array contents). -/
def emptyNeighbourTable : List NeighbourInfo :=
  List.replicate MAX_NEIGHBOURS freshNeighbourEntry

/-- Eight empty forward-queue ring slots. -/
def emptyQueue : List ForwardMessage := List.replicate FORWARD_QUEUE_SIZE default

/-- A node state with everything at its boot value (non-gateway defaults). -/
def baseState : NodeState :=
  { my := { id := 0, slotIndex := 0, isLocalized := false, hoppingDistance := 0x7F,
            syncedCycle := 0, syncStratum := STRATUM_LOCAL, syncSource := 0,
            syncValidCounter := 0, syncedWithGateway := false },
    neighbours := emptyNeighbourTable,
    neighbourIndices := List.replicate MAX_NEIGHBOURS 0,
    neighbourCount := 0,
    forwardQueue := emptyQueue, forwardQueueHead := 0, forwardQueueTail := 0,
    forwardQueueCount := 0,
    hasSensorDataToSend := false, sensorDataToSend := [], sensorDataReceived := [],
    messageIdCounter := 0, ownMessageOrigSender := 0, ownMessageId := 0,
    cycleValidated := false, cycleValidationCount := 0, lastReceivedCycle := -1,
    pdrStats := [], lastCycleForStratum := 255 }

/-- A confirmed neighbour-table entry for the concrete scenarios. -/
def mkNbr (id slot hop : Nat) (rssi snr : Int) (listed : Bool) (stratum : Nat) :
    NeighbourInfo :=
  { freshNeighbourEntry with
    id := id, slotIndex := slot, hoppingDistance := hop, rssi := rssi, snr := snr,
    amIListedAsNeighbour := listed, isBidirectional := listed, syncStratum := stratum }

/-- Scenario state for the forward-path test: leaf node 5 (slot 4, hop 3),
    cycle-validated, synchronised to cycle 4 = (5 - 1) mod 6, whose only
    neighbour is relay 4 (slot 5, hop 2, bidirectional). -/
def leafStateC1 : NodeState :=
  { baseState with
    my := { id := 5, slotIndex := 4, isLocalized := false, hoppingDistance := 3,
            syncedCycle := 4, syncStratum := STRATUM_INDIRECT, syncSource := 4,
            syncValidCounter := 5, syncedWithGateway := true },
    neighbours := emptyNeighbourTable.set 0 (mkNbr 4 5 2 (-80) 5 true 2),
    neighbourCount := 1,
    cycleValidated := true, cycleValidationCount := 3, lastReceivedCycle := 4 }

/-- Scenario state for the forward-path test: relay 4 (slot 5, hop 2) whose
    only neighbour is relay 2 (slot 6, hop 1, bidirectional). -/
def relay4StateC1 : NodeState :=
  { baseState with
    my := { id := 4, slotIndex := 5, isLocalized := false, hoppingDistance := 2,
            syncedCycle := 4, syncStratum := STRATUM_INDIRECT, syncSource := 2,
            syncValidCounter := 5, syncedWithGateway := true },
    neighbours := emptyNeighbourTable.set 0 (mkNbr 2 6 1 (-70) 6 true 1),
    neighbourCount := 1,
    cycleValidated := true, cycleValidationCount := 3, lastReceivedCycle := 4 }

/-- Scenario state for the forward-path test: relay 2 (slot 6, hop 1) whose
    only neighbour is the gateway (node 1, slot 1, hop 0, bidirectional). -/
def relay2StateC1 : NodeState :=
  { baseState with
    my := { id := 2, slotIndex := 6, isLocalized := false, hoppingDistance := 1,
            syncedCycle := 4, syncStratum := STRATUM_DIRECT, syncSource := 1,
            syncValidCounter := 5, syncedWithGateway := true },
    neighbours := emptyNeighbourTable.set 0 (mkNbr 1 1 0 (-60) 8 true 0),
    neighbourCount := 1,
    cycleValidated := true, cycleValidationCount := 3, lastReceivedCycle := 4 }

/-- Scenario state for the forward-path test: the gateway, node 1, hop 0. -/
def gatewayStateC1 : NodeState :=
  { baseState with
    my := { id := 1, slotIndex := 1, isLocalized := true, hoppingDistance := 0,
            syncedCycle := 4, syncStratum := STRATUM_GATEWAY, syncSource := 0,
            syncValidCounter := 0, syncedWithGateway := false } }

/-- The byte string of the originated payload in the scenario
    (the six ASCII characters of the T25H80 reading). -/
def c1Payload : List Nat := [84, 50, 53, 72, 56, 48]

/-- Leaf 5 after its round-robin origination fires in cycle 4. -/
def c1Leaf1 : NodeState := autoSendStep leafStateC1 c1Payload

/-- The OWN frame leaf 5 puts on air. -/
def c1Frame1 : List Nat := (transmitUnifiedPacket c1Leaf1).2

/-- Relay 4 after observing the leaf frame (targeted at it) at RSSI -60. -/
def c1Relay4 : NodeState := (processRxPacket false false relay4StateC1 c1Frame1 (-60) 5).1

/-- The FORWARD frame relay 4 puts on air the same cycle. -/
def c1Frame2 : List Nat := (transmitUnifiedPacket c1Relay4).2

/-- Relay 2 after observing relay 4's frame (targeted at it) at RSSI -65. -/
def c1Relay2 : NodeState := (processRxPacket false false relay2StateC1 c1Frame2 (-65) 4).1

/-- The FORWARD frame relay 2 puts on air, targeted at the gateway. -/
def c1Frame3 : List Nat := (transmitUnifiedPacket c1Relay2).2

/-- The gateway after receiving relay 2's frame at RSSI -55 (PDR build). -/
def c1Gateway : NodeState := (processRxPacket true true gatewayStateC1 c1Frame3 (-55) 9).1

/-- Failing input for the loop-prevention claim: a FORWARD frame from node 7
    (slot 3, hop 3, cycle 4), hop_decision_target 4, origin 7, message id
    1800, hop_count 2, path so far 7 then 4 — node 4 already relayed it once. -/
def c2Frame : List Nat :=
  [0, 0, 0, 0, 7, 3, 3, 32, 2, 0, 4, 192, 0, 0, 0, 0, 0, 0, 0, 0, 0, 0, 0, 0,
   0, 0, 0, 0, 0, 7, 7, 8, 2, 6, 0, 7, 0, 4, 0, 0, 0, 0, 0, 0, 0, 0, 0, 0]

/-- Relay 4 after observing c2Frame at RSSI -60: the frame is enqueued even
    though node 4 already appears in its path. -/
def c2Relay4 : NodeState := (processRxPacket false false relay4StateC1 c2Frame (-60) 5).1

/-- Counterexample state for the hop-recomputation claim: node 6 at hop 2
    whose neighbour table is completely empty (its only upstream was evicted). -/
def c3State : NodeState :=
  { baseState with
    my := { id := 6, slotIndex := 3, isLocalized := false, hoppingDistance := 2,
            syncedCycle := 1, syncStratum := STRATUM_INDIRECT, syncSource := 4,
            syncValidCounter := 2, syncedWithGateway := true } }

/-- Counterexample state for the sync-countdown claim: a node whose
    syncedCycle still equals lastCycleForStratum (its upstream fell silent),
    counter 5, stratum DIRECT. -/
def c4State : NodeState :=
  { baseState with
    my := { id := 3, slotIndex := 2, isLocalized := false, hoppingDistance := 1,
            syncedCycle := 3, syncStratum := STRATUM_DIRECT, syncSource := 1,
            syncValidCounter := 5, syncedWithGateway := true },
    lastCycleForStratum := 3 }

/-- Gateway PDR table after one observation of message id 1290 from origin 5
    (sequence number 10). -/
def c5Table1 : List PdrNodeStats := updatePdrStats [] 5 1290

/-- The same table after a second observation of the very same message id. -/
def c5Table2 : List PdrNodeStats := updatePdrStats c5Table1 5 1290

/-- Counterexample state for the frame-layout claim: node 9 with five
    neighbours (ids 2, 3, 6, 7, 8) and nothing to send. -/
def c8State : NodeState :=
  { baseState with
    my := { id := 9, slotIndex := 7, isLocalized := false, hoppingDistance := 2,
            syncedCycle := 1, syncStratum := STRATUM_INDIRECT, syncSource := 2,
            syncValidCounter := 5, syncedWithGateway := true },
    neighbours :=
      ((((emptyNeighbourTable.set 0 (mkNbr 2 6 1 (-70) 6 true 1)).set 1
          (mkNbr 3 2 2 (-80) 4 true 2)).set 2 (mkNbr 6 3 2 (-85) 3 false 2)).set 3
          (mkNbr 7 4 3 (-90) 2 false 3)).set 4 (mkNbr 8 5 3 (-95) 1 false 3),
    neighbourIndices := [0, 1, 2, 3, 4, 0, 0, 0, 0, 0],
    neighbourCount := 5 }

/-- The header-only frame node 9 puts on air: five neighbour entries, the
    fifth one occupying offsets 28-31 of the data section. -/
def c8Frame : List Nat := (transmitUnifiedPacket c8State).2

/-- Counterexample state for the no-next-hop claim: node 6 (hop 2) with an
    empty neighbour table and exactly one queued forward entry. -/
def c9State : NodeState :=
  { baseState with
    my := { id := 6, slotIndex := 3, isLocalized := false, hoppingDistance := 2,
            syncedCycle := 2, syncStratum := STRATUM_INDIRECT, syncSource := 4,
            syncValidCounter := 3, syncedWithGateway := true },
    forwardQueue := emptyQueue.set 0
      { originalSender := 9, messageId := 2310, hopCount := 2, dataLen := 6,
        data := [0, 0, 0, 0, 0, 0], tracking := [9, 4, 0] },
    forwardQueueHead := 1, forwardQueueTail := 0, forwardQueueCount := 1 }

/-- Witness state for the full-table claim: node 4 whose ten neighbour slots
    are all occupied by ids 11-20. -/
def c10State : NodeState :=
  { baseState with
    my := { id := 4, slotIndex := 5, isLocalized := false, hoppingDistance := 2,
            syncedCycle := 4, syncStratum := STRATUM_INDIRECT, syncSource := 2,
            syncValidCounter := 5, syncedWithGateway := true },
    neighbours := (List.range MAX_NEIGHBOURS).map
      (fun i => mkNbr (11 + i) (i % 8) 2 (-80) 4 true 2),
    neighbourIndices := [0, 1, 2, 3, 4, 5, 6, 7, 8, 9],
    neighbourCount := 10 }

/-- Frame from the unknown sender 21 (slot 6), FORWARD data targeted at
    node 4 — everything the full table forces the node to ignore. -/
def c10Frame : List Nat :=
  [0, 0, 0, 0, 21, 6, 2, 33, 2, 0, 4, 128, 0, 0, 0, 0, 0, 0, 0, 0, 0, 0, 0, 0,
   0, 0, 0, 0, 0, 9, 9, 3, 1, 6, 0, 9, 0, 0, 0, 0, 0, 0, 0, 0, 0, 0, 0, 0]

/-- Witness state for the amended sync-countdown claim: syncedCycle has
    changed since the last check, the counter is at 1, stratum DIRECT. -/
def c4bState : NodeState :=
  { baseState with
    my := { id := 3, slotIndex := 2, isLocalized := false, hoppingDistance := 1,
            syncedCycle := 3, syncStratum := STRATUM_DIRECT, syncSource := 1,
            syncValidCounter := 1, syncedWithGateway := true },
    lastCycleForStratum := 2 }

/-- Modelled from the spec (claim wording): the per-origin PDR update the
    claim describes for a later observation, with delta = (seq - last_seq)
    mod 256 and pdr = received / expected.  Kept for comparison with the
    source-derived pdrApply. -/
def pdrApplyClaimSpec (stats : PdrNodeStats) (seqNum : Nat) : PdrNodeStats :=
  if ¬stats.initialized then
    { stats with lastSeqReceived := seqNum, receivedCount := 1, expectedCount := 1,
                 initialized := true }
  else
    let delta := (seqNum + 256 - stats.lastSeqReceived) % 256
    let received := stats.receivedCount + 1
    let expected := stats.expectedCount + delta
    let gaps := stats.gapCount + (delta - 1)
    { stats with lastSeqReceived := seqNum, receivedCount := received,
                 expectedCount := expected, gapCount := gaps,
                 pdr := (received : ℚ) / (expected : ℚ) }

/-- The sequence delta the source actually realises, phrased arithmetically:
    (seq - last) mod 256 for distinct values, but 256 (not 0) for a duplicate
    sequence number. -/
def pdrDeltaAmended (last seq : Nat) : Nat :=
  if seq = last then 256 else (seq + 256 - last) % 256

/-- Iteration 1 of the double-origination run: the top-of-loop stratum check
    on the leaf state.  The upstream frame of this cycle is lost, so no RX
    occurs anywhere in the run and syncedCycle never advances past the leaf's
    turn value 4. -/
def c6S1 : NodeState := stratumTimeoutStep leafStateC1

/-- Iteration 1 continued: the auto-send gate fires in turn cycle 4
    (first origination, message counter 1). -/
def c6S2 : NodeState := autoSendStep c6S1 c1Payload

/-- Iteration 1 continued: hop recomputation of the processing phase (a
    no-op here: the single neighbour keeps the hop at 3).  The neighbour tick
    is omitted: one tick only raises the entry's activity counter to 1, far
    below MAX_INACTIVE_CYCLES, and rebuilds the identical index list. -/
def c6S3 : NodeState := recalculateHopCount c6S2

/-- Iteration 1 continued: the TX phase emits the OWN frame and clears the
    pending payload; both RX windows then time out without a frame. -/
def c6S4 : NodeState := (transmitUnifiedPacket c6S3).1

/-- Iteration 2: the stratum check again (a no-op, since syncedCycle is
    unchanged) — immediately after which the loop evaluates the auto-send
    gate a second time. -/
def c6S5 : NodeState := stratumTimeoutStep c6S4

/-! Helper lemmas about the minimum scan of recalculateHopCount. -/

theorem foldlMinScan_le_init :
    ∀ (l : List Nat) (init : Nat),
      l.foldl (fun a v => if v < a then v else a) init ≤ init := by
  intro l
  induction l with
  | nil => intro init; exact Nat.le_refl _
  | cons a t ih =>
      intro init
      have h1 := ih (if a < init then a else init)
      have h2 : (if a < init then a else init) ≤ init := by split <;> omega
      exact Nat.le_trans h1 h2

theorem foldlMinScan_le_mem :
    ∀ (l : List Nat) (init v : Nat), v ∈ l →
      l.foldl (fun a v => if v < a then v else a) init ≤ v := by
  intro l
  induction l with
  | nil => intro init v hv; cases hv
  | cons a t ih =>
      intro init v hv
      rcases List.mem_cons.mp hv with h | h
      · subst h
        have h1 := foldlMinScan_le_init t (if v < init then v else init)
        have h2 : (if v < init then v else init) ≤ v := by split <;> omega
        exact Nat.le_trans h1 h2
      · exact ih _ v h

theorem foldlMinScan_mem_or_init :
    ∀ (l : List Nat) (init : Nat),
      l.foldl (fun a v => if v < a then v else a) init = init ∨
      l.foldl (fun a v => if v < a then v else a) init ∈ l := by
  intro l
  induction l with
  | nil => intro _; exact Or.inl rfl
  | cons a t ih =>
      intro init
      rcases ih (if a < init then a else init) with h | h
      · by_cases ha : a < init
        · right
          rw [List.foldl_cons, h, if_pos ha]
          exact List.mem_cons_self a t
        · left
          rw [List.foldl_cons, h, if_neg ha]
      · right
        rw [List.foldl_cons]
        exact List.mem_cons_of_mem a h

theorem recalcMinHop_as_candidates_fold :
    ∀ (l : List NeighbourInfo) (init : Nat),
      l.foldl
        (fun minHop n =>
          if n.id ≠ 0 ∧ n.hoppingDistance ≠ 0x7F ∧ RSSI_THRESHOLD_DBM ≤ n.rssi then
            if n.hoppingDistance + 1 < minHop then n.hoppingDistance + 1 else minHop
          else minHop)
        init =
      (l.filterMap
        (fun n =>
          if n.id ≠ 0 ∧ n.hoppingDistance ≠ 0x7F ∧ RSSI_THRESHOLD_DBM ≤ n.rssi then
            some (n.hoppingDistance + 1)
          else none)).foldl (fun a v => if v < a then v else a) init := by
  intro l
  induction l with
  | nil => intro _; rfl
  | cons n t ih =>
      intro init
      by_cases h : n.id ≠ 0 ∧ n.hoppingDistance ≠ 0x7F ∧ RSSI_THRESHOLD_DBM ≤ n.rssi
      · simp only [List.foldl_cons, List.filterMap_cons, if_pos h]
        exact ih _
      · simp only [List.foldl_cons, List.filterMap_cons, if_neg h]
        exact ih _

theorem recalcMinHop_eq_fold (s : NodeState) :
    recalcMinHop s =
      (hopCandidates s).foldl (fun a v => if v < a then v else a) 0x7F :=
  recalcMinHop_as_candidates_fold s.neighbours 0x7F

/-- C3, counterexample: node 6 sits at hop 2 with an empty neighbour table
    (no qualifying neighbour at all), yet the per-cycle recomputation leaves
    its hop at 2 instead of setting the 0x7F sentinel the claim requires. -/
theorem recalculateHopCount_noCandidate_counterexample :
    hopCandidates c3State = [] ∧
    c3State.my.hoppingDistance = 2 ∧
    (recalculateHopCount c3State).my.hoppingDistance = 2 ∧
    (2 : Nat) ≠ 0x7F := by decide

/-- C3, amended: on a non-gateway node the per-cycle recomputation sets hop
    to the minimum of n.hop + 1 over neighbours with n.rssi at or above
    RSSI_MIN and n.hop not 0x7F whenever some such candidate is below the
    0x7F sentinel; when no neighbour qualifies the state (and hence the hop)
    is left unchanged — the hop is never set to 0x7F. -/
theorem recalculateHopCount_amended (s : NodeState) :
    (hopCandidates s = [] → recalculateHopCount s = s) ∧
    (∀ m ∈ hopCandidates s, m < 0x7F →
      (recalculateHopCount s).my.hoppingDistance ∈ hopCandidates s ∧
      ∀ v ∈ hopCandidates s, (recalculateHopCount s).my.hoppingDistance ≤ v) := by
  constructor
  · intro hempty
    have h1 : recalcMinHop s = 0x7F := by
      rw [recalcMinHop_eq_fold, hempty]; rfl
    simp [recalculateHopCount, h1]
  · intro m hm hmlt
    have hle : recalcMinHop s ≤ m := by
      rw [recalcMinHop_eq_fold]
      exact foldlMinScan_le_mem _ _ _ hm
    have hne : recalcMinHop s ≠ 0x7F := by omega
    have hmem : recalcMinHop s ∈ hopCandidates s := by
      rcases foldlMinScan_mem_or_init (hopCandidates s) 0x7F with h | h
      · rw [← recalcMinHop_eq_fold] at h
        exact absurd h hne
      · rw [← recalcMinHop_eq_fold] at h
        exact h
    have hval : (recalculateHopCount s).my.hoppingDistance = recalcMinHop s := by
      by_cases hcase : recalcMinHop s ≠ s.my.hoppingDistance ∧ recalcMinHop s ≠ 0x7F
      · simp [recalculateHopCount, hcase]
      · have heq : recalcMinHop s = s.my.hoppingDistance := by tauto
        simp [recalculateHopCount, heq]
    constructor
    · rw [hval]; exact hmem
    · intro v hv
      rw [hval, recalcMinHop_eq_fold]
      exact foldlMinScan_le_mem _ _ _ hv

/-- Witness for recalculateHopCount_amended at the relay-4 scenario state:
    its single candidate is hop 1 + 1 = 2, and the recomputation indeed lands
    on the candidate minimum. -/
theorem recalculateHopCount_amended_witness :
    (2 : Nat) ∈ hopCandidates relay4StateC1 ∧ (2 : Nat) < 0x7F ∧
    (recalculateHopCount relay4StateC1).my.hoppingDistance ∈ hopCandidates relay4StateC1 ∧
    ∀ v ∈ hopCandidates relay4StateC1,
      (recalculateHopCount relay4StateC1).my.hoppingDistance ≤ v :=
  ⟨by decide, by decide,
   ((recalculateHopCount_amended relay4StateC1).2 2 (by decide) (by decide)).1,
   ((recalculateHopCount_amended relay4StateC1).2 2 (by decide) (by decide)).2⟩

/-- C4, counterexample: a non-gateway node whose syncedCycle still equals the
    static lastCycleForStratum (the upstream fell silent, so the cycle never
    advanced) runs a main-loop iteration without touching sync_valid_counter:
    the counter stays 5 instead of dropping to 4 as the claim requires, so
    degradation to Local can be postponed forever. -/
theorem stratumTimeout_skipped_counterexample :
    c4State.my.syncValidCounter = 5 ∧
    stratumTimeoutStep c4State = c4State ∧
    (stratumTimeoutStep c4State).my.syncValidCounter ≠ c4State.my.syncValidCounter - 1 := by
  decide

/-- C4, amended: the countdown block runs only on main-loop iterations where
    syncedCycle differs from its value at the previous check
    (lastCycleForStratum); then, if sync_valid_counter is positive, it is
    decremented, and when it thereby reaches 0 while stratum < Local the node
    degrades directly to Local and clears sync_source.  A node whose upstream
    falls silent therefore reaches Local only after SYNC_VALID_CYCLES
    observed changes of syncedCycle without a refresh, not after
    SYNC_VALID_CYCLES loop cycles. -/
theorem stratumTimeoutStep_amended (s : NodeState) :
    (s.lastCycleForStratum = s.my.syncedCycle → stratumTimeoutStep s = s) ∧
    (s.lastCycleForStratum ≠ s.my.syncedCycle → 0 < s.my.syncValidCounter →
      (stratumTimeoutStep s).my.syncValidCounter = s.my.syncValidCounter - 1 ∧
      (stratumTimeoutStep s).lastCycleForStratum = s.my.syncedCycle ∧
      (s.my.syncValidCounter = 1 → s.my.syncStratum < STRATUM_LOCAL →
        (stratumTimeoutStep s).my.syncStratum = STRATUM_LOCAL ∧
        (stratumTimeoutStep s).my.syncSource = 0 ∧
        (stratumTimeoutStep s).my.syncedWithGateway = false) ∧
      (1 < s.my.syncValidCounter →
        (stratumTimeoutStep s).my.syncStratum = s.my.syncStratum ∧
        (stratumTimeoutStep s).my.syncSource = s.my.syncSource)) ∧
    (s.lastCycleForStratum ≠ s.my.syncedCycle → s.my.syncValidCounter = 0 →
      (stratumTimeoutStep s).my = s.my) := by
  refine ⟨?_, ?_, ?_⟩
  · intro h
    simp [stratumTimeoutStep, h]
  · intro h1 h2
    by_cases h3 : s.my.syncValidCounter - 1 = 0 ∧ s.my.syncStratum < STRATUM_LOCAL
    · have hstep : stratumTimeoutStep s =
          { s with
            my := { s.my with
              syncValidCounter := s.my.syncValidCounter - 1,
              syncStratum := STRATUM_LOCAL, syncedWithGateway := false, syncSource := 0 },
            lastCycleForStratum := s.my.syncedCycle } := by
        simp [stratumTimeoutStep, h1, h2, h3]
      rw [hstep]
      exact ⟨rfl, rfl, fun _ _ => ⟨rfl, rfl, rfl⟩, fun hgt => absurd hgt (by omega)⟩
    · have hstep : stratumTimeoutStep s =
          { s with
            my := { s.my with syncValidCounter := s.my.syncValidCounter - 1 },
            lastCycleForStratum := s.my.syncedCycle } := by
        simp [stratumTimeoutStep, h1, h2, h3]
      rw [hstep]
      exact ⟨rfl, rfl, fun he hs => absurd ⟨by omega, hs⟩ h3, fun _ => ⟨rfl, rfl⟩⟩
  · intro h1 h2
    simp [stratumTimeoutStep, h1, h2]

/-- Witness for stratumTimeoutStep_amended at a state whose cycle did change
    with the counter at 1 and stratum Direct: the step degrades it to Local
    and clears the sync source. -/
theorem stratumTimeoutStep_amended_witness :
    c4bState.lastCycleForStratum ≠ c4bState.my.syncedCycle ∧
    0 < c4bState.my.syncValidCounter ∧
    (stratumTimeoutStep c4bState).my.syncValidCounter = 0 ∧
    (stratumTimeoutStep c4bState).my.syncStratum = STRATUM_LOCAL ∧
    (stratumTimeoutStep c4bState).my.syncSource = 0 := by
  have h := (stratumTimeoutStep_amended c4bState).2.1 (by decide) (by decide)
  refine ⟨by decide, by decide, ?_, (h.2.2.1 (by decide) (by decide)).1,
          (h.2.2.1 (by decide) (by decide)).2.1⟩
  rw [h.1]; decide

/-- C5, counterexample: after origin 5 is first observed with sequence 10, a
    second observation of the very same message id gives delta 256 in the
    code (expected jumps from 1 to 257, gaps to 255, pdr to 200/257), while
    the claim's delta = (10 - 10) mod 256 = 0 and pdr = received/expected
    predict expected 1, gaps 0, pdr 2. -/
theorem updatePdrStats_duplicate_counterexample :
    (c5Table1.getD 0 default).lastSeqReceived = 10 ∧
    (c5Table1.getD 0 default).expectedCount = 1 ∧
    (c5Table2.getD 0 default).expectedCount = 257 ∧
    (c5Table2.getD 0 default).gapCount = 255 ∧
    (c5Table2.getD 0 default).receivedCount = 2 ∧
    (pdrApplyClaimSpec (c5Table1.getD 0 default) 10).expectedCount = 1 ∧
    (pdrApplyClaimSpec (c5Table1.getD 0 default) 10).gapCount = 0 ∧
    (c5Table2.getD 0 default).expectedCount ≠
      (pdrApplyClaimSpec (c5Table1.getD 0 default) 10).expectedCount ∧
    (c5Table2.getD 0 default).pdr ≠
      (pdrApplyClaimSpec (c5Table1.getD 0 default) 10).pdr := by
  have he : c5Table1.getD 0 default =
      { nodeId := 5, lastSeqReceived := 10, expectedCount := 1, receivedCount := 1,
        gapCount := 0, pdr := 100, initialized := true } := rfl
  have h2 : c5Table2.getD 0 default = pdrApply (c5Table1.getD 0 default) 10 := rfl
  refine ⟨by decide, by decide, by decide, by decide, by decide, by decide, by decide,
          by decide, ?_⟩
  rw [h2, he]
  norm_num [pdrApply, pdrApplyClaimSpec]

/-- C5, amended: with seq = msg_id mod 256, the first observation from an
    origin (no entry yet, table not full) appends an entry with last_seq =
    seq, expected = 1, received = 1; a later observation routed to the
    existing initialized entry applies: delta = (seq - last_seq) mod 256 when
    seq differs from last_seq but delta = 256 on a duplicate sequence number;
    received += 1; expected += delta; gaps += max(0, delta - 1); and pdr is
    the PERCENTAGE received * 100 / expected (not the ratio
    received/expected).  Counter truncation (uint16) is excluded by the
    bounds hypotheses. -/
theorem updatePdrStats_amended (table : List PdrNodeStats) (origin messageId i : Nat)
    (e : PdrNodeStats) :
    ((∀ x ∈ table, x.nodeId ≠ origin) → table.length < MAX_PDR_NODES →
      updatePdrStats table origin messageId =
        table ++ [{ nodeId := origin, lastSeqReceived := messageId % 256,
                    expectedCount := 1, receivedCount := 1, gapCount := 0,
                    pdr := 100, initialized := true }]) ∧
    (table.findIdx? (fun x => x.nodeId == origin) = some i → table.getD i default = e →
      updatePdrStats table origin messageId = table.set i (pdrApply e (messageId % 256))) ∧
    (∀ seq : Nat, e.initialized = true → seq < 256 → e.lastSeqReceived < 256 →
      e.receivedCount + 1 < 65536 → e.expectedCount + 256 < 65536 →
      e.gapCount + 256 < 65536 →
      (pdrApply e seq).lastSeqReceived = seq ∧
      (pdrApply e seq).receivedCount = e.receivedCount + 1 ∧
      (pdrApply e seq).expectedCount =
        e.expectedCount + pdrDeltaAmended e.lastSeqReceived seq ∧
      (pdrApply e seq).gapCount =
        e.gapCount + (pdrDeltaAmended e.lastSeqReceived seq - 1) ∧
      (pdrApply e seq).pdr =
        ((e.receivedCount + 1 : Nat) : ℚ) * 100 /
          ((e.expectedCount + pdrDeltaAmended e.lastSeqReceived seq : Nat) : ℚ)) := by
  refine ⟨?_, ?_, ?_⟩
  · intro hno hlen
    have hfind : table.findIdx? (fun x => x.nodeId == origin) = none :=
      List.findIdx?_eq_none_iff.mpr
        (fun x hx => by simpa using hno x hx)
    simp only [updatePdrStats, hfind, if_pos hlen]
    rfl
  · intro hfind hget
    simp only [updatePdrStats, hfind, hget]
  · intro seq hinit hseq hlast hrec hexp hgap
    have hΔ :
        (if e.lastSeqReceived < seq then seq - e.lastSeqReceived
         else 256 - e.lastSeqReceived + seq) = pdrDeltaAmended e.lastSeqReceived seq := by
      unfold pdrDeltaAmended
      rcases Nat.lt_trichotomy e.lastSeqReceived seq with h | h | h
      · rw [if_pos h, if_neg (by omega)]
        omega
      · rw [if_neg (by omega), if_pos (by omega)]
        omega
      · rw [if_neg (by omega), if_neg (by omega)]
        omega
    have hΔ1 : 1 ≤ pdrDeltaAmended e.lastSeqReceived seq := by
      unfold pdrDeltaAmended
      split
      · omega
      · omega
    have hΔ256 : pdrDeltaAmended e.lastSeqReceived seq ≤ 256 := by
      unfold pdrDeltaAmended
      split
      · omega
      · omega
    have h1 : (e.receivedCount + 1) % 65536 = e.receivedCount + 1 :=
      Nat.mod_eq_of_lt hrec
    have h2 : (e.expectedCount + pdrDeltaAmended e.lastSeqReceived seq) % 65536 =
        e.expectedCount + pdrDeltaAmended e.lastSeqReceived seq :=
      Nat.mod_eq_of_lt (by omega)
    have h3 :
        (if 1 < pdrDeltaAmended e.lastSeqReceived seq then
          (e.gapCount + (pdrDeltaAmended e.lastSeqReceived seq - 1)) % 65536
         else e.gapCount) = e.gapCount + (pdrDeltaAmended e.lastSeqReceived seq - 1) := by
      split
      · exact Nat.mod_eq_of_lt (by omega)
      · omega
    have hbool : (¬e.initialized) = False := by simp [hinit]
    simp only [pdrApply, hbool, if_false, hΔ, h1, h2, h3]
    refine ⟨trivial, trivial, trivial, trivial, ?_⟩
    rw [if_pos (by omega)]

/-- Witness for updatePdrStats_amended: routing the duplicate observation of
    message id 1290 from origin 5 through the existing entry, whose amended
    delta at the duplicate is 256. -/
theorem updatePdrStats_amended_witness :
    c5Table1.findIdx? (fun x => x.nodeId == 5) = some 0 ∧
    updatePdrStats c5Table1 5 1290 = c5Table1.set 0 (pdrApply (c5Table1.getD 0 default) 10) ∧
    (pdrApply (c5Table1.getD 0 default) 10).expectedCount =
      (c5Table1.getD 0 default).expectedCount + pdrDeltaAmended 10 10 := by
  have h := updatePdrStats_amended c5Table1 5 1290 0 (c5Table1.getD 0 default)
  refine ⟨by decide, h.2.1 (by decide) rfl, ?_⟩
  have h3 := (h.2.2 10 (by decide) (by decide) (by decide) (by decide) (by decide)
    (by decide)).2.2.1
  simpa using h3

/-- C6, counterexample: a non-gateway node's syncedCycle only advances when
    it hears a lower-hop neighbour, so one lost upstream frame freezes it at
    the turn value.  Leaf 5 originates in its turn cycle (counter 1), the TX
    phase consumes the pending payload, and in the very next main-loop
    iteration — with syncedCycle still 4 — the gate fires again and a second
    origination (counter 2) happens, two iterations apart: more than once per
    AUTO_SEND_INTERVAL_CYCLES = 6 cycles, refuting the at-most-once-per-M
    half of the claim. -/
theorem autoSend_twicePerCycleValue_counterexample :
    autoSendFires c6S1 = true ∧
    c6S2.hasSensorDataToSend = true ∧
    c6S2.messageIdCounter = 1 ∧
    c6S4.hasSensorDataToSend = false ∧
    c6S5.my.syncedCycle = leafStateC1.my.syncedCycle ∧
    autoSendFires c6S5 = true ∧
    (autoSendStep c6S5 c1Payload).hasSensorDataToSend = true ∧
    (autoSendStep c6S5 c1Payload).messageIdCounter = 2 := by decide

/-- C6, amended: through the auto-send engine a node originates only in a
    main-loop iteration where its synchronised cycle equals (id - 1) mod
    AUTO_SEND_INTERVAL_CYCLES, and only when it has no pending own payload,
    its hop is neither 0 nor 0x7F, some indexed neighbour is strictly closer
    to the gateway and bidirectional, and cycle validation has been passed.
    Origination itself leaves the synchronised cycle untouched, so the gate
    can fire again in any later iteration in which these conditions recur —
    the at-most-once-per-M bound does not hold. -/
theorem autoSendGate_amended (s : NodeState) (payload : List Nat)
    (hid : 1 ≤ s.my.id) (hid2 : s.my.id ≤ 65535)
    (hfire : autoSendFires s = true) :
    s.my.syncedCycle = (s.my.id - 1) % AUTO_SEND_INTERVAL_CYCLES ∧
    s.hasSensorDataToSend = false ∧
    s.cycleValidated = true ∧
    s.my.hoppingDistance ≠ 0 ∧
    s.my.hoppingDistance ≠ 0x7F ∧
    (∃ i < s.neighbourCount,
      (s.neighbours.getD (s.neighbourIndices.getD i 0) default).hoppingDistance <
          s.my.hoppingDistance ∧
      (s.neighbours.getD (s.neighbourIndices.getD i 0) default).amIListedAsNeighbour = true) ∧
    (autoSendStep s payload).hasSensorDataToSend = true ∧
    (autoSendStep s payload).my.syncedCycle = s.my.syncedCycle := by
  have hfire' := hfire
  simp only [autoSendFires, Bool.and_eq_true, bne_iff_ne, Bool.not_eq_true',
    beq_iff_eq, hasNextHopB, List.any_eq_true, List.mem_range,
    Bool.and_eq_true, decide_eq_true_eq] at hfire'
  obtain ⟨⟨⟨⟨⟨h1, h2⟩, h3⟩, h4⟩, h5⟩, i, hi, hhop, hbid⟩ := hfire'
  have hturn : myTurnCycle s.my.id = (s.my.id - 1) % AUTO_SEND_INTERVAL_CYCLES := by
    have : (s.my.id + 65535) % 65536 = s.my.id - 1 := by omega
    simp [myTurnCycle, this]
  refine ⟨by rw [h5, hturn], h3, h4, h1, h2, ⟨i, hi, hhop, hbid⟩, ?_, ?_⟩
  · simp [autoSendStep, hfire]
  · simp [autoSendStep, hfire]

/-- Witness for autoSendGate_amended at the leaf-5 scenario state: the gate
    fires in cycle 4 = (5 - 1) mod 6 and sets the pending payload. -/
theorem autoSendGate_amended_witness :
    autoSendFires leafStateC1 = true ∧
    leafStateC1.my.syncedCycle = (leafStateC1.my.id - 1) % AUTO_SEND_INTERVAL_CYCLES ∧
    (autoSendStep leafStateC1 c1Payload).hasSensorDataToSend = true := by
  have h := autoSendGate_amended leafStateC1 c1Payload (by decide) (by decide) (by decide)
  exact ⟨by decide, h.1, h.2.2.2.2.2.2.1⟩

/-- C7: a received frame with RSSI below the -115 dBm floor is rejected with
    return value 255 and the whole node state is returned unchanged (no
    neighbour, hop, stratum, cycle-validation, forward-queue or gateway/PDR
    effect), and the responder does not switch to timing adjustment for the
    255 return. -/
theorem processRxPacket_rssiReject (isRef pdrEnabled : Bool) (s : NodeState)
    (rx : List Nat) (rxRssi rxSnr : Int) (h : rxRssi < RSSI_THRESHOLD_DBM) :
    processRxPacket isRef pdrEnabled s rx rxRssi rxSnr = (s, 255) ∧
    responderDispatch 255 = { senderSlot := 255, adjustTiming := false } := by
  constructor
  · simp [processRxPacket, h]
  · simp [responderDispatch]

/-- Witness for processRxPacket_rssiReject: relay 4 receiving the c2Frame at
    RSSI -120 dBm rejects it completely. -/
theorem processRxPacket_rssiReject_witness :
    (-120 : Int) < RSSI_THRESHOLD_DBM ∧
    processRxPacket false false relay4StateC1 c2Frame (-120) 0 = (relay4StateC1, 255) ∧
    responderDispatch 255 = { senderSlot := 255, adjustTiming := false } :=
  ⟨by decide,
   (processRxPacket_rssiReject false false relay4StateC1 c2Frame (-120) 0 (by decide)).1,
   (processRxPacket_rssiReject false false relay4StateC1 c2Frame (-120) 0 (by decide)).2⟩

/-- C8, counterexample: node 9 with five neighbours encodes FIVE neighbour
    entries (MAX_NEIGHBOURS_IN_PACKET is 6, not 4): the fifth entry occupies
    offsets 28-31 inside the data section (its id 8 sits at offset 28-29),
    and on decode the count field 5 survives the clamp (which is to 6, not 4)
    so the decoder reads a neighbour entry from offset 28. -/
theorem frameLayout_counterexample :
    neighborsToSendOf c8State = 5 ∧
    ¬(neighborsToSendOf c8State ≤ 4) ∧
    fWord c8Frame 28 = 8 ∧
    fWord c8Frame 28 ≠ 0 ∧
    parseNumNeighbours c8Frame = 5 ∧
    ¬(parseNumNeighbours c8Frame ≤ 4) ∧
    (parseNeighbourIds c8Frame).getD 4 0 = fWord c8Frame 28 := by decide

/-- C8, amended: every encoded frame carries at most
    MAX_NEIGHBOURS_IN_PACKET = 6 neighbour entries, in the 24-byte region at
    offsets 12-35; on decode the neighbour_count field is clamped to 6, so a
    count of 5 or 6 makes the decoder read neighbour entries from offsets
    28-35, which overlap the data section starting at offset 28. -/
theorem frameNeighbours_amended (s : NodeState) (rx : List Nat) :
    neighborsToSendOf s ≤ MAX_NEIGHBOURS_IN_PACKET ∧
    12 + 4 * neighborsToSendOf s ≤ 36 ∧
    parseNumNeighbours rx ≤ MAX_NEIGHBOURS_IN_PACKET ∧
    (parseNeighbourIds rx).length = parseNumNeighbours rx ∧
    (5 ≤ parseNumNeighbours rx → (parseNeighbourIds rx).getD 4 0 = fWord rx 28) := by
  refine ⟨Nat.min_le_right _ _, ?_, Nat.min_le_right _ _, by simp [parseNeighbourIds], ?_⟩
  · have h := Nat.min_le_right s.neighbourCount MAX_NEIGHBOURS_IN_PACKET
    unfold neighborsToSendOf
    unfold MAX_NEIGHBOURS_IN_PACKET at h ⊢
    omega
  · intro h5
    have h4 : 4 < parseNumNeighbours rx := by omega
    have h4' : 4 < (List.range (parseNumNeighbours rx)).length := by
      simpa using h4
    simp only [parseNeighbourIds, List.getD_eq_getElem?_getD, List.getElem?_map]
    rw [List.getElem?_eq_getElem h4']
    simp [List.getElem_range]

/-- Witness for frameNeighbours_amended at the five-neighbour frame: the
    clamped count is at least 5 and the fifth decoded id is the word at
    offset 28. -/
theorem frameNeighbours_amended_witness :
    5 ≤ parseNumNeighbours c8Frame ∧
    (parseNeighbourIds c8Frame).getD 4 0 = fWord c8Frame 28 :=
  ⟨by decide, (frameNeighbours_amended c8State c8Frame).2.2.2.2 (by decide)⟩

/-- C9, counterexample: node 6 (hop 2) has one queued forward entry and no
    neighbour at all, so next-hop selection yields no candidate (0) — yet
    transmitUnifiedPacket dequeues the entry anyway and emits it as a FORWARD
    frame with hop_decision_target 0: the queue entry is consumed in that
    cycle, not held. -/
theorem noNextHop_counterexample :
    selectBestNextHop (dequeueForward c9State).1 = 0 ∧
    c9State.forwardQueueCount = 1 ∧
    (transmitUnifiedPacket c9State).1.forwardQueueCount = 0 ∧
    fByte (transmitUnifiedPacket c9State).2 8 = DATA_MODE_FORWARD ∧
    fWord (transmitUnifiedPacket c9State).2 9 = 0 := by decide

/-- C9, amended: whenever the hop is neither 0 nor 0x7F and the forward
    queue is non-empty, transmitUnifiedPacket dequeues the oldest entry and
    transmits it as a FORWARD frame regardless of whether next-hop selection
    found a candidate (with no candidate the frame carries
    hop_decision_target 0); the queue count always drops by one in that
    cycle.  Entries are held across cycles only while the hop is 0 or 0x7F. -/
theorem forwardDrain_amended (s : NodeState) :
    (s.my.hoppingDistance ≠ 0x7F → s.my.hoppingDistance ≠ 0 → 0 < s.forwardQueueCount →
      txContent s =
        ((dequeueForward s).1, DATA_MODE_FORWARD,
         selectBestNextHop (dequeueForward s).1,
         (s.forwardQueue.getD s.forwardQueueTail default).originalSender,
         (s.forwardQueue.getD s.forwardQueueTail default).messageId,
         (s.forwardQueue.getD s.forwardQueueTail default).hopCount,
         (s.forwardQueue.getD s.forwardQueueTail default).dataLen,
         (s.forwardQueue.getD s.forwardQueueTail default).tracking) ∧
      (transmitUnifiedPacket s).1.forwardQueueCount = s.forwardQueueCount - 1) ∧
    ((s.my.hoppingDistance = 0x7F ∨ s.my.hoppingDistance = 0) →
      (transmitUnifiedPacket s).1.forwardQueueCount = s.forwardQueueCount) := by
  constructor
  · intro h7 h0 hc
    have hdq : dequeueForward s =
        ({ s with forwardQueueTail := (s.forwardQueueTail + 1) % FORWARD_QUEUE_SIZE,
                  forwardQueueCount := s.forwardQueueCount - 1 },
         some (s.forwardQueue.getD s.forwardQueueTail default)) := by
      simp [dequeueForward, Nat.pos_iff_ne_zero.mp hc]
    have htx : txContent s =
        ((dequeueForward s).1, DATA_MODE_FORWARD,
         selectBestNextHop (dequeueForward s).1,
         (s.forwardQueue.getD s.forwardQueueTail default).originalSender,
         (s.forwardQueue.getD s.forwardQueueTail default).messageId,
         (s.forwardQueue.getD s.forwardQueueTail default).hopCount,
         (s.forwardQueue.getD s.forwardQueueTail default).dataLen,
         (s.forwardQueue.getD s.forwardQueueTail default).tracking) := by
      rw [txContent, if_pos ⟨hc, h7, h0⟩, hdq]
    refine ⟨htx, ?_⟩
    rw [transmitUnifiedPacket]
    rw [htx, hdq]
  · intro h
    have hcond1 : ¬(0 < s.forwardQueueCount ∧ s.my.hoppingDistance ≠ 0x7F ∧
        s.my.hoppingDistance ≠ 0) := by tauto
    have hcond2 : ¬(s.hasSensorDataToSend = true ∧ s.my.hoppingDistance ≠ 0x7F ∧
        s.my.hoppingDistance ≠ 0) := by tauto
    rw [transmitUnifiedPacket]
    by_cases hd : s.hasSensorDataToSend
    · rw [txContent, if_neg hcond1, if_neg (by tauto)]
    · rw [txContent, if_neg hcond1, if_neg (by tauto)]

/-- Witness for forwardDrain_amended at the no-next-hop scenario state. -/
theorem forwardDrain_amended_witness :
    c9State.my.hoppingDistance ≠ 0x7F ∧
    c9State.my.hoppingDistance ≠ 0 ∧
    0 < c9State.forwardQueueCount ∧
    (transmitUnifiedPacket c9State).1.forwardQueueCount = c9State.forwardQueueCount - 1 :=
  ⟨by decide, by decide, by decide,
   ((forwardDrain_amended c9State).1 (by decide) (by decide) (by decide)).2⟩

/-- C10: when every neighbour slot is occupied by some other node, a frame
    from an unknown sender is skipped entirely — the state is returned
    unchanged (no neighbour, stratum, hop, cycle-validation, forward-queue or
    gateway/PDR effect, even for a data frame targeting this node) — yet the
    frame's sender slot is still returned, and the responder uses it for
    timing adjustment whenever it is not 255. -/
theorem processRxPacket_tableFull (isRef pdrEnabled : Bool) (s : NodeState)
    (rx : List Nat) (rxRssi rxSnr : Int)
    (hnotin : ∀ n ∈ s.neighbours, n.id ≠ parseSenderId rx)
    (hnofree : ∀ n ∈ s.neighbours, n.id ≠ 0)
    (hrssi : RSSI_THRESHOLD_DBM ≤ rxRssi) :
    processRxPacket isRef pdrEnabled s rx rxRssi rxSnr = (s, parseSenderSlot rx) ∧
    (parseSenderSlot rx ≠ 255 →
      responderDispatch (parseSenderSlot rx) =
        { senderSlot := parseSenderSlot rx, adjustTiming := true }) := by
  constructor
  · have hf1 : s.neighbours.findIdx? (fun n => n.id == parseSenderId rx) = none :=
      List.findIdx?_eq_none_iff.mpr (fun x hx => by simpa using hnotin x hx)
    have hf2 : s.neighbours.findIdx? (fun n => n.id == 0) = none :=
      List.findIdx?_eq_none_iff.mpr (fun x hx => by simpa using hnofree x hx)
    have hf : findSenderSlot s.neighbours (parseSenderId rx) = none := by
      rw [findSenderSlot, hf1, hf2]
    rw [processRxPacket, if_neg (not_lt.mpr hrssi), hf]
  · intro h
    simp [responderDispatch, h]

/-- Witness for processRxPacket_tableFull: node 4 with ten occupied slots
    receives a FORWARD frame from unknown node 21 targeted at itself; nothing
    changes but slot 6 is returned and drives the timing adjustment. -/
theorem processRxPacket_tableFull_witness :
    (∀ n ∈ c10State.neighbours, n.id ≠ parseSenderId c10Frame) ∧
    parseSenderSlot c10Frame = 6 ∧
    fWord c10Frame 9 = c10State.my.id ∧
    processRxPacket false false c10State c10Frame (-60) 5 =
      (c10State, parseSenderSlot c10Frame) ∧
    responderDispatch (parseSenderSlot c10Frame) =
      { senderSlot := parseSenderSlot c10Frame, adjustTiming := true } := by
  have h := processRxPacket_tableFull false false c10State c10Frame (-60) 5
    (by decide) (by decide) (by decide)
  exact ⟨by decide, by decide, by decide, h.1, h.2 (by decide)⟩

/-- C1: the end-to-end forward path 5 -> 4 -> 2 -> gateway.  Leaf 5
    originates the payload T25H80 in its turn cycle, each relay observes the
    packet with hop_decision_target equal to its own id and forwards it, and
    the gateway receives path [5, 4, 2] with hop_count 3 — but the payload it
    decodes is six zero bytes, NOT the originated payload: the firmware never
    copies the payload into frame bytes 40-45 (the line present at
    node_ra01s.ino line 628 is missing from firmware.ino). -/
theorem forwardPath_payloadLost :
    autoSendFires leafStateC1 = true ∧
    c1Leaf1.sensorDataToSend = c1Payload ∧
    fByte c1Frame1 8 = DATA_MODE_OWN ∧
    fWord c1Frame1 9 = 4 ∧
    fByte c1Frame2 8 = DATA_MODE_FORWARD ∧
    fWord c1Frame2 9 = 2 ∧
    fByte c1Frame3 8 = DATA_MODE_FORWARD ∧
    fWord c1Frame3 9 = 1 ∧
    fWord c1Frame3 28 = 5 ∧
    fByte c1Frame3 32 = 3 ∧
    [fWord c1Frame3 34, fWord c1Frame3 36, fWord c1Frame3 38] = [5, 4, 2] ∧
    c1Gateway.sensorDataReceived = [0, 0, 0, 0, 0, 0] ∧
    c1Gateway.sensorDataReceived ≠ c1Payload := by decide

/-- C2: no loop-prevention check exists before enqueueForward.  Relay 4
    receives a FORWARD frame targeted at itself whose path [7, 4] already
    contains its own id at index 1 < hop_count — the claim (and the repo's
    own README) say the message is dropped, but the firmware enqueues it,
    appending id 4 a second time, so the queued entry violates
    my.id not-in path[0..hops_so_far]. -/
theorem loopPrevention_missing :
    relay4StateC1.my.id = 4 ∧
    fWord c2Frame 9 = 4 ∧
    fByte c2Frame 32 = 2 ∧
    relay4StateC1.my.id ∈ [fWord c2Frame 34, fWord c2Frame 36] ∧
    relay4StateC1.forwardQueueCount = 0 ∧
    c2Relay4.forwardQueueCount = 1 ∧
    forwardQueueEntries c2Relay4 =
      [{ originalSender := 7, messageId := 1800, hopCount := 3, dataLen := 6,
         data := [0, 0, 0, 0, 0, 0], tracking := [7, 4, 4] }] ∧
    relay4StateC1.my.id ∈
      ((c2Relay4.forwardQueue.getD 0 default).tracking.take
        ((c2Relay4.forwardQueue.getD 0 default).hopCount)) := by decide

end LoRaMesh
